import Mathlib

/-!
Verification development for the Breedbase-Client core: a shallow embedding of
the paginated fetch engine, the two-phase search engine, the capability check,
the session-scoped result cache and the session manager
(`src/client/helpers.py`, `src/client/capabilities/helpers.py`,
`src/mcp_server/tools/generic/tools.py`, `src/mcp_server/session/result_cache.py`,
`src/mcp_server/tools/file_handling/result_cache.py`,
`src/mcp_server/session/session_manager.py`).

JSON values are modelled by an inductive type; Python dictionaries are
association lists; machine behaviour that can raise (KeyError, TypeError,
AttributeError, transport errors, missing files) is modelled with `Except`.
The `while` loop of the fetch engine is embedded with an explicit fuel
parameter; running out of fuel is a distinguished error, so an `Except.ok`
result always corresponds to a genuine loop exit of the Python code.
-/

namespace Breedbase

/-- JSON values as delivered by the remote BrAPI server and stored in results. -/
inductive Json where
  | null
  | bool (b : Bool)
  | num (n : Int)
  | str (s : String)
  | arr (elems : List Json)
  | obj (fields : List (String × Json))

/-- Python-level failures: `requests` transport errors, TypeError,
AttributeError, ValueError, KeyError, FileNotFoundError, UnboundLocalError,
plus the fuel sentinel of the loop embedding. -/
inductive PyErr where
  | transport (msg : String)
  | typeError
  | attributeError
  | valueError (msg : String)
  | keyError (k : String)
  | fileNotFound (path : List String)
  | unboundLocal
  | fuelOut
deriving DecidableEq, Repr

/-- Rendering of an exception by `str(e)`, as used by the tool wrappers. -/
def pyErrMsg : PyErr → String
  | .transport m => m
  | .typeError => "TypeError"
  | .attributeError => "AttributeError"
  | .valueError m => m
  | .keyError k => "KeyError: " ++ k
  | .fileNotFound p => "[Errno 2] No such file or directory: " ++ String.intercalate "/" p
  | .unboundLocal => "local variable referenced before assignment"
  | .fuelOut => "fuel exhausted"

/-- Python truthiness of a JSON value (`if not x`). -/
def truthy : Json → Bool
  | .null => false
  | .bool b => b
  | .num n => n != 0
  | .str s => !s.isEmpty
  | .arr l => !l.isEmpty
  | .obj f => !f.isEmpty

/-- First-match lookup in a Python dict, represented as an association list. -/
def objLookup : List (String × Json) → String → Option Json
  | [], _ => none
  | p :: ps, k => if p.1 = k then some p.2 else objLookup ps k

/-- Substring test on character lists, modelling Python `needle in haystack`
for strings. -/
def strContains : List Char → List Char → Bool
  | needle, hay =>
    if needle.isPrefixOf hay then true
    else match hay with
      | [] => false
      | _ :: t => strContains needle t

/-- Python `key in value`: key membership for dicts, element equality for
lists (a string key only equals string elements), substring test for strings,
TypeError otherwise. -/
def pyContains (j : Json) (k : String) : Except PyErr Bool :=
  match j with
  | .obj fs => .ok (fs.any (fun p => p.1 == k))
  | .arr xs => .ok (xs.any (fun x => match x with | .str s => s == k | _ => false))
  | .str s => .ok (strContains k.data s.data)
  | _ => .error .typeError

/-- Python `value[key]` with a string key. -/
def pyGetItem (j : Json) (k : String) : Except PyErr Json :=
  match j with
  | .obj fs =>
    match objLookup fs k with
    | some v => .ok v
    | none => .error (.keyError k)
  | _ => .error .typeError

/-- Python `value.get(key, default)`: only dicts have `.get`. -/
def pyDictGet (j : Json) (k : String) (dflt : Json) : Except PyErr Json :=
  match j with
  | .obj fs => .ok ((objLookup fs k).getD dflt)
  | _ => .error .attributeError

/-- A JSON value usable as a Python int (bools are ints in Python). -/
def asInt : Json → Option Int
  | .num n => some n
  | .bool b => some (if b then 1 else 0)
  | _ => none

/-- Python `len(x)` for sized values. -/
def pyLen : Json → Except PyErr Nat
  | .arr xs => .ok xs.length
  | .str s => .ok s.length
  | .obj fs => .ok fs.length
  | _ => .error .typeError

/-- Python iteration as used by `list.extend`: lists yield their elements,
strings their characters, dicts their keys; other values raise TypeError. -/
def pyIter : Json → Except PyErr (List Json)
  | .arr xs => .ok xs
  | .str s => .ok (s.data.map (fun c => Json.str ⟨[c]⟩))
  | .obj fs => .ok (fs.map (fun p => Json.str p.1))
  | _ => .error .typeError

/-- Python `str(x)` as used in f-string interpolation of the search handle.
Scalars are rendered exactly; container rendering is abbreviated (only scalar
handles occur in the repository's flows). -/
def pyStr : Json → String
  | .null => "None"
  | .bool true => "True"
  | .bool false => "False"
  | .num n => toString n
  | .str s => s
  | .arr _ => "[...]"
  | .obj _ => "\x7b...\x7d"

/-- The (excluded) transport layer: `get` takes the endpoint path, the page
index and the page size and returns the decoded JSON body or raises; `post`
takes the path under the base URL and the JSON body. -/
structure Client where
  get : String → Nat → Nat → Except PyErr Json
  post : String → Json → Except PyErr Json

/-- Summary metadata dict built by `fetch_paginated` / `search_paginated`.
`pagesFetched` and `error` are optional because the corresponding dict keys
are only present on some paths of the source. -/
structure FetchMeta where
  totalCount : Json
  returnedCount : Nat
  pagesFetched : Option Nat
  timestamp : String
  error : Option String

/-- Result of `fetch_paginated`: the flat record list, the summary metadata,
and (as instrumentation of the embedding) the number of page requests that
were issued to the transport layer. -/
structure FetchOut where
  records : List Json
  meta : FetchMeta
  requests : Nat

/-- `_extract_data` (src/client/helpers.py lines 157-166): extract the data
array from a BrAPI result object. A dict that has a `data` key returns that
key's value (whatever it is, mirroring `result_obj.get('data', [])`); a bare
list returns itself; any other dict is wrapped into a one-element list;
everything else yields the empty list. -/
def _extract_data : Json → Json
  | .obj fs =>
    if fs.any (fun p => p.1 == "data") then (objLookup fs "data").getD (.arr [])
    else .arr [.obj fs]
  | .arr xs => .arr xs
  | _ => .arr []

/-- The guard of the `while` loop: `max_pages is None or page < max_pages`. -/
def loopCond (maxPages : Option Nat) (page : Nat) : Bool :=
  match maxPages with
  | none => true
  | some m => page < m

/-- Outcome of one iteration of the fetch loop body: leave the loop with the
final accumulator and `total_count` (`stop`, for the `break` statements and
for the last-page check), or go round again (`next`). -/
inductive IterOut where
  | stop (acc : List Json) (tc : Json)
  | next (acc : List Json) (tc : Json)

/-- One iteration of the `while` body of `fetch_paginated`
(src/client/helpers.py lines 44-69), after the page response has been
received: the falsy-response / missing-`result` / empty-data `break`s keep
the old state; otherwise the records are appended, the pagination block is
read (with the source's defaults), `total_pages` is capped by `max_pages`,
and the loop breaks when `current_page >= total_pages - 1`. -/
def fetchIter (maxPages : Option Nat) (page : Nat) (acc : List Json) (tc : Json)
    (response : Json) : Except PyErr IterOut :=
  if truthy response = false then .ok (.stop acc tc)
  else match pyContains response "result" with
  | .error e => .error e
  | .ok hasRes =>
    if hasRes = false then .ok (.stop acc tc)
    else match pyGetItem response "result" with
    | .error e => .error e
    | .ok result =>
      let d := _extract_data result
      if truthy d = false then .ok (.stop acc tc)
      else match pyIter d with
      | .error e => .error e
      | .ok recs =>
        let acc' := acc ++ recs
        match pyDictGet response "metadata" (.obj []) with
        | .error e => .error e
        | .ok md =>
          match pyDictGet md "pagination" (.obj []) with
          | .error e => .error e
          | .ok pag =>
            match pyDictGet pag "totalCount" (.num acc'.length) with
            | .error e => .error e
            | .ok tc' =>
              match pyDictGet pag "currentPage" (.num page) with
              | .error e => .error e
              | .ok cpJ =>
                match pyDictGet pag "totalPages" (.num 1) with
                | .error e => .error e
                | .ok tpJ =>
                  match asInt tpJ with
                  | none => .error .typeError
                  | some tp =>
                    let tp' : Int :=
                      match maxPages with
                      | none => tp
                      | some m => min tp (m : Int)
                    match asInt cpJ with
                    | none => .error .typeError
                    | some cp =>
                      if cp ≥ tp' - 1 then .ok (.stop acc' tc')
                      else .ok (.next acc' tc')

/-- The `while` loop of `fetch_paginated` (src/client/helpers.py lines 41-71),
embedded with fuel. State: current `page`, accumulated `all_data`, the
`total_count` variable, and the instrumented request counter. Returns
`(all_data, total_count, final page value, requests)`. -/
def fetchLoop (get : Nat → Except PyErr Json) (maxPages : Option Nat)
    (fuel page : Nat) (acc : List Json) (tc : Json) (reqs : Nat) :
    Except PyErr (List Json × Json × Nat × Nat) :=
  match fuel with
  | 0 =>
    if loopCond maxPages page then .error .fuelOut
    else .ok (acc, tc, page, reqs)
  | f + 1 =>
    if loopCond maxPages page then
      match get page with
      | .error e => .error e
      | .ok response =>
        match fetchIter maxPages page acc tc response with
        | .error e => .error e
        | .ok (.stop acc' tc') => .ok (acc', tc', page, reqs + 1)
        | .ok (.next acc' tc') => fetchLoop get maxPages f (page + 1) acc' tc' (reqs + 1)
    else .ok (acc, tc, page, reqs)

/-- `fetch_paginated` (src/client/helpers.py lines 12-84): fetch paginated
data from a BrAPI endpoint. The `as_dataframe` flag is dropped (both branches
return the same records up to `pd.json_normalize`, which preserves counts);
`now` stands for `datetime.now().isoformat()`. -/
def fetch_paginated (client : Client) (endpoint : String) (maxPages : Option Nat)
    (pagesize : Nat) (now : String) (fuel : Nat) : Except PyErr FetchOut :=
  match fetchLoop (fun p => client.get endpoint p pagesize) maxPages fuel 0 [] (.num 0) 0 with
  | .error e => .error e
  | .ok (recs, tc, page, reqs) =>
    .ok { records := recs
          meta := { totalCount := tc, returnedCount := recs.length,
                    pagesFetched := some (page + 1), timestamp := now, error := none }
          requests := reqs }

/-- `search_paginated` (src/client/helpers.py lines 87-154): POST the search
body to `search/{service}`; on a transport error return an empty result whose
metadata carries the error string; if the response has no truthy
`searchResultsDbId` return the normalized inline result directly; otherwise
page through `search/{service}/{handle}` via `fetch_paginated`. The record
payload is returned as a `Json` value (`.arr` for the list cases); the third
component counts the page requests issued in the fetch phase. -/
def search_paginated (client : Client) (service : String) (searchParams : Json)
    (maxPages : Option Nat) (pagesize : Nat) (now : String) (fuel : Nat) :
    Except PyErr (Json × FetchMeta × Nat) :=
  match client.post ("search/" ++ service) searchParams with
  | .error (.transport msg) =>
    .ok (.arr [], { totalCount := .num 0, returnedCount := 0, pagesFetched := none,
                    timestamp := now, error := some msg }, 0)
  | .error e => .error e
  | .ok searchResponse =>
    match pyDictGet searchResponse "result" (.obj []) with
    | .error e => .error e
    | .ok result =>
      match pyDictGet result "searchResultsDbId" .null with
      | .error e => .error e
      | .ok searchId =>
        if truthy searchId = false then
          let d := _extract_data result
          match pyLen d with
          | .error e => .error e
          | .ok n =>
            .ok (d, { totalCount := .num n, returnedCount := n, pagesFetched := none,
                      timestamp := now, error := none }, 0)
        else
          match fetch_paginated client ("search/" ++ service ++ "/" ++ pyStr searchId)
              maxPages pagesize now fuel with
          | .error e => .error e
          | .ok out => .ok (.arr out.records, out.meta, out.requests)

/-- One remote endpoint, from `src/client/capabilities/type.py`
(`EndpointCapability`); the parameter-schema field is abstracted away. -/
structure EndpointCapability where
  path : String
  methods : List String
  data_types : List String
  module : Option String
  description : Option String
deriving DecidableEq, Repr

/-- `ModuleCapability`: a named grouping; `endpoints` is the dict mapping
endpoint path to its capability. -/
structure ModuleCapability where
  name : String
  endpoints : List (String × EndpointCapability)
deriving DecidableEq, Repr

/-- `ServerCapabilities`: root aggregate (src/client/capabilities/type.py). -/
structure ServerCapabilities where
  server_name : String
  modules : List (String × ModuleCapability)
  endpoints : List (String × EndpointCapability)
deriving DecidableEq, Repr

/-- Python `service.lstrip('/')`. -/
def lstripSlash (s : String) : String := ⟨s.data.dropWhile (· = '/')⟩

/-- `check_endpoint_exists` (src/client/capabilities/helpers.py lines 4-13):
iterate every module and every endpoint-path dict key, and test
`service_clean in endpoint` — Python string membership, i.e. a substring
test, not an exact lookup. -/
def check_endpoint_exists (caps : ServerCapabilities) (service : String) : Bool :=
  let service_clean := lstripSlash service
  caps.modules.any (fun m => m.2.endpoints.any (fun ep => strContains service_clean.data ep.1.data))

/-- Insertion of a string into a sorted list, by byte-wise order; used to
model Python `sorted`. -/
def insortStr (s : String) : List String → List String
  | [] => [s]
  | t :: ts => if charsLe s.data t.data then s :: t :: ts else t :: insortStr s ts
where
  charsLe : List Char → List Char → Bool
  | [], _ => true
  | _ :: _, [] => false
  | a :: as, b :: bs => if a < b then true else if b < a then false else charsLe as bs

/-- Python `sorted` on strings. -/
def sortStrs (l : List String) : List String := l.foldr insortStr []

/-- Python `set` collapse (order irrelevant because a sort follows). -/
def dedupStr : List String → List String
  | [] => []
  | s :: ts => if ts.contains s then dedupStr ts else s :: dedupStr ts

/-- `list_all_services` (src/client/capabilities/helpers.py lines 16-21):
`sorted(set(...))` over every module's endpoint keys. -/
def list_all_services (caps : ServerCapabilities) : List String :=
  sortStrs (dedupStr (caps.modules.foldr (fun m acc => m.2.endpoints.map (·.1) ++ acc) []))

/-- Python truthiness of an optional string argument (`if db_id:`). -/
def pyStrTruthy : Option String → Bool
  | none => false
  | some s => !s.isEmpty

/-- Python `'/'.join(parts)`. -/
def joinSlash : List String → String
  | [] => ""
  | [p] => p
  | p :: ps => p ++ "/" ++ joinSlash ps

/-- Outcome of the dispatch portion of the `brapi_get` tool: either one of its
early-return error dicts, or the fetch invocation it proceeds to (with the
endpoint string it was issued against). -/
inductive DispatchOut where
  | unsupported (error hint : String) (available_services : List String)
  | invalidSub (error : String)
  | subNeedsId (error : String)
  | fetched (endpoint : String) (result : Except PyErr FetchOut)

/-- The dispatch portion of `brapi_get`
(src/mcp_server/tools/generic/tools.py lines 75-111): capability gate via
`check_endpoint_exists`, sub-resource validation, endpoint construction by
`'/'.join`, then the `fetch_paginated` call with the derived page bounds.
The caching continuation past the fetch call is outside this model. -/
def brapi_get_dispatch (caps : ServerCapabilities) (client : Client) (service : String)
    (db_id sub : Option String) (max_results : Nat) (now : String) (fuel : Nat) :
    DispatchOut :=
  if check_endpoint_exists caps service = false then
    .unsupported ("Service '" ++ service ++ "' not supported by this server")
      "Use describe_server_capabilities() to see available services"
      (list_all_services caps)
  else
    let base := if pyStrTruthy db_id then [service, db_id.getD ""] else [service]
    let runFetch := fun (endpoint : String) =>
      let mr := min max_results 500
      DispatchOut.fetched endpoint
        (fetch_paginated client endpoint (some (mr / 100 + 1)) (min 100 mr) now fuel)
    if pyStrTruthy sub then
      let s := sub.getD ""
      if !(["calls", "callsets", "variants"].contains s) then
        .invalidSub ("Invalid sub-resource '" ++ s ++ "'")
      else if pyStrTruthy db_id = false then
        .subNeedsId ("sub-resource '" ++ s ++ "' requires db_id")
      else runFetch (joinSlash (base ++ [s]))
    else runFetch (joinSlash base)

/-- Filesystem paths, kept as component lists (`dir / file`). -/
abbrev FsPath := List String

/-- Association-list maps standing for Python dicts and for the filesystem
directory contents (one entry per key after `insertA`). -/
def lookupA {κ α : Type} [DecidableEq κ] : List (κ × α) → κ → Option α
  | [], _ => none
  | p :: ps, k => if p.1 = k then some p.2 else lookupA ps k

/-- Remove every binding of key `k`. -/
def eraseKey {κ α : Type} [DecidableEq κ] (k : κ) : List (κ × α) → List (κ × α)
  | [] => []
  | p :: ps => if p.1 = k then eraseKey k ps else p :: eraseKey k ps

/-- `d[k] = v`: replaces any previous binding of `k` (dict semantics: at most
one entry per key survives). -/
def insertA {κ α : Type} [DecidableEq κ] (k : κ) (v : α) (l : List (κ × α)) :
    List (κ × α) :=
  (k, v) :: eraseKey k l

/-- Number of entries stored under key `k`. -/
def countKey {κ α : Type} [DecidableEq κ] (k : κ) : List (κ × α) → Nat
  | [] => 0
  | p :: ps => (if p.1 = k then 1 else 0) + countKey k ps

/-- A stored tabular result: a pandas DataFrame abstracted to its column
names and rows (row cells positionally matching `cols`). -/
structure DF where
  cols : List String
  rows : List (List Json)

/-- One entry of the `cache_metadata.json` index
(src/mcp_server/session/result_cache.py lines 81-92). -/
structure MetaEntry where
  result_id : String
  session_id : Option String
  file_path : FsPath
  format : String
  row_count : Nat
  column_count : Nat
  columns : List String
  size_bytes : Nat
  created_at : String
  query_metadata : Json

/-- One entry of the `sessions.json` registry
(src/mcp_server/session/session_manager.py lines 65-69). -/
structure SessEntry where
  created_at : String
  last_accessed : String
  cache_dir : FsPath

/-- Contents of a file on disk: a serialized DataFrame (csv/json/parquet all
round-trip its shape), a metadata index, or the session registry. JSON
serialization of the two index shapes is the identity in this model. -/
inductive Content where
  | table (df : DF)
  | metaIdx (m : List (String × MetaEntry))
  | registry (r : List (String × SessEntry))

/-- The filesystem: path to file content. -/
abbrev FS := List (FsPath × Content)

/-- On-disk size of a written DataFrame file, abstracted to a deterministic
function of its shape (no claim inspects the byte count). -/
def dfSize (d : DF) : Nat := d.rows.length * (d.cols.length + 1) + 1

/-- `ResultCache` (src/mcp_server/session/result_cache.py): the cache
directory and the in-memory metadata index. -/
structure ResultCache where
  cache_dir : FsPath
  metadata : List (String × MetaEntry)

/-- `ResultCache.__init__` + `_load_metadata` (lines 18-30): read
`cache_metadata.json` if it exists, else start empty. A file of the wrong
shape would make `json.load` produce a non-index value (unreachable here). -/
def mkResultCache (fs : FS) (dir : FsPath) : Except PyErr ResultCache :=
  match lookupA fs (dir ++ ["cache_metadata.json"]) with
  | some (.metaIdx m) => .ok ⟨dir, m⟩
  | some _ => .error .typeError
  | none => .ok ⟨dir, []⟩

/-- The `data` argument of `save_result`: a DataFrame, a Python value
(dict/list/... as received from a tool), mirroring the isinstance dispatch. -/
inductive SaveData where
  | frame (d : DF)
  | pyVal (j : Json)

/-- `pd.DataFrame(records)` for a list of record dicts: columns are the
ordered union of keys; missing cells become null (NaN). Non-dict records
contribute no keys and null cells (only dict records occur in this repo). -/
def dfOfRecords (rs : List Json) : DF :=
  let cols := dedupKeys (rs.foldr (fun r acc => keysOf r ++ acc) [])
  { cols := cols
    rows := rs.map (fun r =>
      cols.map (fun c =>
        match r with
        | .obj fs => (objLookup fs c).getD .null
        | _ => .null)) }
where
  keysOf : Json → List String
  | .obj fs => fs.map (·.1)
  | _ => []
  dedupKeys : List String → List String
  | [] => []
  | s :: ts => s :: (dedupKeys ts).filter (fun t => decide (t ≠ s))

/-- The data-conversion prologue of `save_result` (lines 57-65): dict with a
`data` list, bare list, DataFrame, else ValueError. -/
def toDF : SaveData → Except PyErr DF
  | .frame d => .ok d
  | .pyVal (.obj fs) =>
    if fs.any (fun p => p.1 == "data") then
      match (objLookup fs "data").getD .null with
      | .arr rs => .ok (dfOfRecords rs)
      | _ => .error (.valueError "DataFrame constructor: unsupported data")
    else .error (.valueError "Unsupported data type")
  | .pyVal (.arr rs) => .ok (dfOfRecords rs)
  | .pyVal _ => .error (.valueError "Unsupported data type")

/-- `ResultCache.save_result` (src/mcp_server/session/result_cache.py lines
37-95): convert the input, write `{result_id}.{format}` under the cache
directory, record the index entry under `result_id` (replacing any previous
one) and persist the index to `cache_metadata.json`. Returns the updated
cache, the updated filesystem and the new entry. -/
def save_result (c : ResultCache) (fs : FS) (result_id : String) (data : SaveData)
    (qmeta : Json) (format : String) (session_id : Option String) (now : String) :
    Except PyErr (ResultCache × FS × MetaEntry) :=
  match toDF data with
  | .error e => .error e
  | .ok df =>
    if format = "csv" ∨ format = "json" ∨ format = "parquet" then
      let file_path := c.cache_dir ++ [result_id ++ "." ++ format]
      let fs1 := insertA file_path (.table df) fs
      let entry : MetaEntry :=
        { result_id := result_id, session_id := session_id, file_path := file_path,
          format := format, row_count := df.rows.length, column_count := df.cols.length,
          columns := df.cols, size_bytes := dfSize df, created_at := now,
          query_metadata := qmeta }
      let meta' := insertA result_id entry c.metadata
      let fs2 := insertA (c.cache_dir ++ ["cache_metadata.json"]) (.metaIdx meta') fs1
      .ok ({ c with metadata := meta' }, fs2, entry)
    else .error (.valueError ("Unsupported format: " ++ format))

/-- `df.head(n)` / `pd.read_csv(nrows := n)` on the stored shape. -/
def dfHead (d : DF) (n : Nat) : DF := { d with rows := d.rows.take n }

/-- Cell of a row under a named column (pandas column indexing). -/
def cellAt (cols : List String) (r : List Json) (c : String) : Json :=
  match cols.findIdx? (fun c' => c' == c) with
  | some i => (r.get? i).getD .null
  | none => .null

/-- `df[cols]`: column projection. -/
def dfSelect (d : DF) (cs : List String) : DF :=
  { cols := cs, rows := d.rows.map (fun r => cs.map (cellAt d.cols r)) }

/-- `df.to_dict(orient := records)`. -/
def toRecords (d : DF) : List Json := d.rows.map (fun r => .obj (d.cols.zip r))

/-- The slice metadata dict of `load_result`; `offset` is only present when
the tool layer sets it. -/
structure SliceMeta where
  result_id : String
  total_rows : Nat
  returned_rows : Nat
  columns : List String
  truncated : Bool
  offset : Option Nat

/-- A loaded slice: records plus slice metadata. -/
structure LoadOut where
  data : List Json
  metadata : SliceMeta

/-- The `truncated` formula of `load_result`
(`limit is not None and limit < row_count`), as a named function usable in
specifications. -/
def truncFlag (lim : Option Nat) (total : Nat) : Bool :=
  match lim with
  | some l => decide (l < total)
  | none => false

/-- The row slice `load_result` takes per format: `read_csv` honours
`nrows=limit` always, while the json/parquet branches skip `head` for a
falsy (0) limit. Named for use in specifications. -/
def limRows (fmt : String) (lim : Option Nat) (df : DF) : DF :=
  match lim with
  | none => df
  | some l => if fmt = "csv" then dfHead df l else if l ≠ 0 then dfHead df l else df

/-- `ResultCache.load_result` (src/mcp_server/session/result_cache.py lines
101-150): unknown id raises ValueError; the data file is read per format
(`read_csv` applies `nrows=limit`; the json/parquet branches apply
`df.head(limit)` only when `limit` is truthy, so `limit=0` is ignored there; a
format outside the three branches leaves `df` unbound); requested columns are
filtered to the available ones; `truncated` is `limit is not None and
limit < row_count`. -/
def load_result (c : ResultCache) (fs : FS) (result_id : String)
    (limit : Option Nat) (columns : Option (List String)) : Except PyErr LoadOut :=
  match lookupA c.metadata result_id with
  | none => .error (.valueError ("Result " ++ result_id ++ " not found in cache"))
  | some info =>
    let readFile : Except PyErr DF :=
      match lookupA fs info.file_path with
      | some (.table df) => .ok df
      | some _ => .error .typeError
      | none => .error (.fileNotFound info.file_path)
    let readDF : Except PyErr DF :=
      if info.format = "csv" then
        match readFile with
        | .error e => .error e
        | .ok df => .ok (match limit with | some l => dfHead df l | none => df)
      else if info.format = "json" ∨ info.format = "parquet" then
        match readFile with
        | .error e => .error e
        | .ok df => .ok (match limit with
            | some l => if l ≠ 0 then dfHead df l else df
            | none => df)
      else .error .unboundLocal
    match readDF with
    | .error e => .error e
    | .ok df0 =>
      let df1 :=
        match columns with
        | some cs =>
          if !cs.isEmpty then dfSelect df0 (cs.filter (fun col => df0.cols.contains col))
          else df0
        | none => df0
      .ok { data := toRecords df1
            metadata := { result_id := result_id, total_rows := info.row_count,
                          returned_rows := df1.rows.length, columns := df1.cols,
                          truncated := (match limit with
                            | some l => decide (l < info.row_count)
                            | none => false),
                          offset := none } }

/-- Return value of the `load_result` MCP tool: the success dict or the
structured error dict built from the caught exception. -/
inductive ToolOut where
  | success (out : LoadOut)
  | failure (error : String)

/-- The `load_result` tool
(src/mcp_server/tools/file_handling/result_cache.py lines 95-145): call the
cache load inside try/except, post-slice by `offset` (and re-apply a truthy
`limit` on the already limited rows), record `offset` in the metadata, and
convert any exception into a failure dict. The slice metadata's
`returned_rows` and `truncated` are not recomputed after the offset slice. -/
def load_result_tool (c : ResultCache) (fs : FS) (result_id : String)
    (limit : Option Nat) (columns : Option (List String)) (offset : Nat) : ToolOut :=
  match load_result c fs result_id limit columns with
  | .error e => .failure (pyErrMsg e)
  | .ok out =>
    if offset > 0 then
      let d0 := out.data.drop offset
      let d1 := match limit with
        | some l => if l ≠ 0 then d0.take l else d0
        | none => d0
      .success { data := d1, metadata := { out.metadata with offset := some offset } }
    else .success out

/-- `SessionManager` (src/mcp_server/session/session_manager.py): base
directory, the registry, and the in-memory cache-per-session map. -/
structure SessionManager where
  base_cache_dir : FsPath
  registry : List (String × SessEntry)
  caches : List (String × ResultCache)

/-- `SessionManager.__init__` + `_load_registry` (lines 17-32): read
`sessions.json` if present, else start with an empty registry; no cache
instances are held yet. -/
def mkSessionManager (fs : FS) (base : FsPath) : Except PyErr SessionManager :=
  match lookupA fs (base ++ ["sessions.json"]) with
  | some (.registry r) => .ok ⟨base, r, []⟩
  | some _ => .error .typeError
  | none => .ok ⟨base, [], []⟩

/-- `SessionManager.get_or_create_session` (lines 39-81): resolve the session
id (truthy explicit id, else context id, else the first 8 characters of a
fresh uuid, supplied here as `fresh`), create or touch the registry entry,
persist the registry, then lazily build and memoize the `ResultCache` for the
session's directory. -/
def get_or_create_session (sm : SessionManager) (fs : FS) (session_id : Option String)
    (ctx_session : Option String) (fresh : String) (now : String) :
    Except PyErr (SessionManager × FS × ResultCache × String) :=
  let fsid :=
    if pyStrTruthy session_id then session_id.getD ""
    else match ctx_session with
      | some c => c
      | none => fresh.take 8
  let entry : SessEntry :=
    match lookupA sm.registry fsid with
    | none => { created_at := now, last_accessed := now,
                cache_dir := sm.base_cache_dir ++ [fsid] }
    | some e => { e with last_accessed := now }
  let registry' := insertA fsid entry sm.registry
  let fs' := insertA (sm.base_cache_dir ++ ["sessions.json"]) (.registry registry') fs
  match lookupA sm.caches fsid with
  | some c => .ok (⟨sm.base_cache_dir, registry', sm.caches⟩, fs', c, fsid)
  | none =>
    match mkResultCache fs' entry.cache_dir with
    | .error e => .error e
    | .ok c =>
      .ok (⟨sm.base_cache_dir, registry', insertA fsid c sm.caches⟩, fs', c, fsid)

/-- A well-behaved server page: one record, echoed `currentPage`, a constant
`totalPages` report. -/
def uniformPage (p T : Nat) (rec : Json) : Json :=
  .obj [("result", .obj [("data", .arr [rec])]),
        ("metadata", .obj [("pagination",
          .obj [("currentPage", .num p), ("totalPages", .num T)])])]

/-- A transport layer whose every page request succeeds with `uniformPage`. -/
def uniformClient (T : Nat) (rec : Json) : Client :=
  { get := fun _ p _ => .ok (uniformPage p T rec)
    post := fun _ _ => .error .typeError }

/-- The metadata entry `save_result` files for a DataFrame input, as a named
value for stating its effect. -/
def saveEntry (dir : FsPath) (df : DF) (rid : String) (sid : Option String)
    (qm : Json) (fmt now : String) : MetaEntry :=
  { result_id := rid, session_id := sid, file_path := dir ++ [rid ++ "." ++ fmt],
    format := fmt, row_count := df.rows.length, column_count := df.cols.length,
    columns := df.cols, size_bytes := dfSize df, created_at := now,
    query_metadata := qm }

/-! Helper lemmas about the association-list maps and the JSON helpers. -/

theorem lookupA_insertA_self {κ α : Type} [DecidableEq κ] (k : κ) (v : α)
    (l : List (κ × α)) : lookupA (insertA k v l) k = some v := by
  simp [insertA, lookupA]

theorem lookupA_eraseKey_ne {κ α : Type} [DecidableEq κ] (k k' : κ) (l : List (κ × α))
    (h : k' ≠ k) :
    lookupA (eraseKey k l) k' = lookupA l k' := by
  have hkk : ¬ (k = k') := fun hc => h hc.symm
  induction l with
  | nil => rfl
  | cons p ps ih =>
    by_cases hp : p.1 = k
    · have hp' : p.1 ≠ k' := by rw [hp]; exact fun hc => h hc.symm
      simp [eraseKey, hp, lookupA, hp', ih, hkk]
    · by_cases hk : p.1 = k'
      · simp [eraseKey, hp, lookupA, hk, h]
      · simp [eraseKey, hp, lookupA, hk, ih]

theorem lookupA_insertA_ne {κ α : Type} [DecidableEq κ] (k k' : κ) (v : α)
    (l : List (κ × α)) (h : k' ≠ k) :
    lookupA (insertA k v l) k' = lookupA l k' := by
  simp only [insertA, lookupA]
  rw [if_neg (fun hc => h hc.symm), lookupA_eraseKey_ne k k' l h]

theorem countKey_eraseKey_self {κ α : Type} [DecidableEq κ] (k : κ)
    (l : List (κ × α)) : countKey k (eraseKey k l) = 0 := by
  induction l with
  | nil => rfl
  | cons p ps ih =>
    by_cases hp : p.1 = k
    · simp [eraseKey, hp, ih]
    · simp [eraseKey, hp, countKey, ih]

theorem countKey_insertA_self {κ α : Type} [DecidableEq κ] (k : κ) (v : α)
    (l : List (κ × α)) : countKey k (insertA k v l) = 1 := by
  simp [countKey, insertA, countKey_eraseKey_self]

theorem countKey_eraseKey_ne {κ α : Type} [DecidableEq κ] (k k' : κ)
    (l : List (κ × α)) (h : k' ≠ k) :
    countKey k' (eraseKey k l) = countKey k' l := by
  have hkk : ¬ (k = k') := fun hc => h hc.symm
  induction l with
  | nil => rfl
  | cons p ps ih =>
    by_cases hp : p.1 = k
    · have hp' : p.1 ≠ k' := by rw [hp]; exact fun hc => h hc.symm
      simp [eraseKey, hp, countKey, hp', ih, hkk]
    · simp [eraseKey, hp, countKey, ih]

theorem countKey_insertA_ne {κ α : Type} [DecidableEq κ] (k k' : κ) (v : α)
    (l : List (κ × α)) (h : k' ≠ k) :
    countKey k' (insertA k v l) = countKey k' l := by
  have hkk : ¬ (k = k') := fun hc => h hc.symm
  simp [countKey, insertA, hkk, countKey_eraseKey_ne k k' l h]

theorem ne_of_length_ne {α : Type} {l₁ l₂ : List α} (h : l₁.length ≠ l₂.length) :
    l₁ ≠ l₂ := fun he => h (congrArg List.length he)

theorem append_singleton_ne {α : Type} (d : List α) {a b : α} (h : a ≠ b) :
    d ++ [a] ≠ d ++ [b] := by
  intro he
  exact h (by simpa using he)

theorem objLookup_any_true {fs : List (String × Json)} {k : String} {v : Json}
    (h : objLookup fs k = some v) : fs.any (fun p => p.1 == k) = true := by
  induction fs with
  | nil => simp [objLookup] at h
  | cons p ps ih =>
    by_cases hp : p.1 = k
    · simp [hp]
    · simp only [objLookup, hp, if_false] at h
      simp [List.any, hp, ih h]

theorem objLookup_any_false {fs : List (String × Json)} {k : String}
    (h : objLookup fs k = none) : fs.any (fun p => p.1 == k) = false := by
  induction fs with
  | nil => rfl
  | cons p ps ih =>
    by_cases hp : p.1 = k
    · simp [objLookup, hp] at h
    · simp only [objLookup, hp, if_false] at h
      simp [List.any, hp, ih h]

theorem save_result_frame (c : ResultCache) (fs : FS) (df : DF) (rid : String)
    (sid : Option String) (qm : Json) (fmt now : String)
    (hfmt : fmt = "csv" ∨ fmt = "json" ∨ fmt = "parquet") :
    save_result c fs rid (.frame df) qm fmt sid now
      = .ok (⟨c.cache_dir, insertA rid (saveEntry c.cache_dir df rid sid qm fmt now) c.metadata⟩,
             insertA (c.cache_dir ++ ["cache_metadata.json"])
               (.metaIdx (insertA rid (saveEntry c.cache_dir df rid sid qm fmt now) c.metadata))
               (insertA (c.cache_dir ++ [rid ++ "." ++ fmt]) (.table df) fs),
             saveEntry c.cache_dir df rid sid qm fmt now) := by
  rcases hfmt with h | h | h <;> subst h <;> rfl

/-- On a uniform page, the loop body reduces to the last-page test, the
record having been appended. -/
theorem fetchIter_uniform_eq (T M p : Nat) (rec : Json) (acc : List Json) (tc : Json) :
    fetchIter (some M) p acc tc (uniformPage p T rec)
      = (if (↑p : Int) ≥ min ↑T ↑M - 1
         then .ok (.stop (acc ++ [rec]) (.num ((acc ++ [rec]).length)))
         else .ok (.next (acc ++ [rec]) (.num ((acc ++ [rec]).length)))) := rfl

/-- On a uniform page with `current_page = page` at or past the capped last
page, the loop body stops, having appended the page's record. -/
theorem fetchIter_uniform_stop (T M p : Nat) (rec : Json) (acc : List Json) (tc : Json)
    (h : min T M - 1 ≤ p) :
    fetchIter (some M) p acc tc (uniformPage p T rec)
      = .ok (.stop (acc ++ [rec]) (.num ((acc ++ [rec]).length))) := by
  have hc : (↑p : Int) ≥ min ↑T ↑M - 1 := by
    rw [(Nat.cast_min T M).symm]
    omega
  rw [fetchIter_uniform_eq, if_pos hc]

/-- On a uniform page strictly before the capped last page, the loop body
continues, having appended the page's record. -/
theorem fetchIter_uniform_next (T M p : Nat) (rec : Json) (acc : List Json) (tc : Json)
    (h : p < min T M - 1) :
    fetchIter (some M) p acc tc (uniformPage p T rec)
      = .ok (.next (acc ++ [rec]) (.num ((acc ++ [rec]).length))) := by
  have hc : ¬ ((↑p : Int) ≥ min ↑T ↑M - 1) := by
    rw [(Nat.cast_min T M).symm]
    omega
  rw [fetchIter_uniform_eq, if_neg hc]

/-- Running the fetch loop against a uniform server from page `p` with enough
fuel performs exactly `min T M - p` further page requests and stops at page
`min T M - 1`, accumulating one record per page. -/
theorem fetchLoop_uniform (T M : Nat) (rec : Json) (get : Nat → Except PyErr Json)
    (hget : ∀ q, get q = .ok (uniformPage q T rec)) (hT : 1 ≤ T) (hM : 1 ≤ M) :
    ∀ fuel p acc tc reqs, p < min T M → min T M - p ≤ fuel →
      fetchLoop get (some M) fuel p acc tc reqs
        = .ok (acc ++ List.replicate (min T M - p) rec,
               .num (((acc.length + (min T M - p) : Nat)) : Int),
               min T M - 1, reqs + (min T M - p)) := by
  intro fuel
  induction fuel with
  | zero =>
    intro p acc tc reqs hp hf
    have : False := by omega
    exact this.elim
  | succ f ih =>
    intro p acc tc reqs hp hf
    have hpM : p < M := lt_of_lt_of_le hp (min_le_right T M)
    simp only [fetchLoop]
    rw [if_pos (by simp [loopCond, hpM]), hget p]
    dsimp only
    by_cases hlast : p = min T M - 1
    · rw [fetchIter_uniform_stop T M p rec acc tc (by omega)]
      dsimp only
      have h1 : min T M - p = 1 := by omega
      rw [h1, ← hlast]
      simp [List.replicate]
    · rw [fetchIter_uniform_next T M p rec acc tc (by omega)]
      dsimp only
      rw [ih (p + 1) (acc ++ [rec]) (.num ((acc ++ [rec]).length)) (reqs + 1)
        (by omega) (by omega)]
      have hk : min T M - p = (min T M - (p + 1)) + 1 := by omega
      rw [hk]
      simp only [Except.ok.injEq, Prod.mk.injEq, List.replicate_succ, List.append_assoc,
        List.length_append, List.singleton_append, Json.num.injEq]
      refine ⟨by simp, ?_, trivial, by omega⟩
      push_cast
      simp
      omega

/-! Claim theorems. -/

/-- C4 (counterexample): the claim says the page-result normalization maps an
object that does not contain a `data` list either to a one-element list
(singleton object) or to the empty list (any other shape). On the object
whose `data` member is the string `oops`, `_extract_data` instead returns
that string unchanged — neither the empty list nor a one-element list. -/
theorem C4_counterexample :
    _extract_data (.obj [("data", .str "oops")]) = .str "oops" ∧
    _extract_data (.obj [("data", .str "oops")]) ≠ .arr [] ∧
    _extract_data (.obj [("data", .str "oops")]) ≠ .arr [.obj [("data", .str "oops")]] := by
  refine ⟨rfl, fun h => ?_, fun h => ?_⟩ <;> simp [_extract_data, objLookup] at h

/-- C4 (amended): the page-result normalization is total and never raises.
An object whose `data` member is present returns that member's value
unchanged (in particular the `data` list itself whenever it is a list; a
non-list `data` value is returned as-is, not wrapped in a list); a bare list
returns itself; an object without a `data` member returns a one-element list;
every non-object non-list value returns the empty list. On representative
single-page fixtures of the object-with-list, bare-list, and singleton-object
shapes, `fetch_paginated` returns 2, 2, and 1 records respectively. -/
theorem C4_extract_data_total :
    (∀ fs v, objLookup fs "data" = some v → _extract_data (.obj fs) = v) ∧
    (∀ xs, _extract_data (.arr xs) = .arr xs) ∧
    (∀ fs, objLookup fs "data" = none → _extract_data (.obj fs) = .arr [.obj fs]) ∧
    (_extract_data .null = .arr []) ∧
    (∀ b, _extract_data (.bool b) = .arr []) ∧
    (∀ n, _extract_data (.num n) = .arr []) ∧
    (∀ s, _extract_data (.str s) = .arr []) ∧
    (∃ out,
      fetch_paginated
        ⟨fun _ _ _ => .ok (.obj [("result",
            .obj [("data", .arr [.obj [("a", .num 1)], .obj [("a", .num 2)]])]),
          ("metadata", .obj [("pagination",
            .obj [("currentPage", .num 0), ("totalPages", .num 1)])])]),
          fun _ _ => .error .typeError⟩
        "studies" (some 100) 10 "t" 100 = .ok out ∧ out.records.length = 2) ∧
    (∃ out,
      fetch_paginated
        ⟨fun _ _ _ => .ok (.obj [("result",
            .arr [.obj [("b", .num 1)], .obj [("b", .num 2)]])]),
          fun _ _ => .error .typeError⟩
        "locations" (some 100) 10 "t" 100 = .ok out ∧ out.records.length = 2) ∧
    (∃ out,
      fetch_paginated
        ⟨fun _ _ _ => .ok (.obj [("result", .obj [("studyDbId", .str "s1")])]),
          fun _ _ => .error .typeError⟩
        "studies/s1" (some 100) 10 "t" 100 = .ok out ∧ out.records.length = 1) := by
  refine ⟨?_, fun xs => rfl, ?_, rfl, fun b => rfl, fun n => rfl, fun s => rfl,
    ⟨_, rfl, rfl⟩, ⟨_, rfl, rfl⟩, ⟨_, rfl, rfl⟩⟩
  · intro fs v h
    simp [_extract_data, objLookup_any_true h, h]
  · intro fs h
    simp [_extract_data, objLookup_any_false h]

/-- C4 (witness): the first conjunct of the amended theorem applied to a
concrete object whose `data` member is a non-list value. -/
theorem C4_witness : _extract_data (.obj [("data", .str "y")]) = .str "y" :=
  C4_extract_data_total.1 [("data", .str "y")] (.str "y") rfl

/-- C1 (counterexample): a search submission whose response contains neither
a `searchResultsDbId` nor inline data (`result` is an object with an empty
`data` list) does not signal a protocol error: `search_paginated` returns a
plain success — an empty record list, `totalCount` 0 and no error entry in
the metadata. -/
theorem C1_counterexample :
    search_paginated
      ⟨fun _ _ _ => .error .typeError,
        fun _ _ => .ok (.obj [("result", .obj [("data", .arr [])])])⟩
      "germplasm" (.obj []) (some 1) 10 "t1" 3
      = .ok (.arr [], ⟨.num 0, 0, none, "t1", none⟩, 0) := rfl

/-- C1 (amended): whenever the submission response carries no truthy
`searchResultsDbId`, `search_paginated` treats the result payload as inline
data and returns it — normalized by `_extract_data` — as a success whose
metadata has no error entry; in particular an empty inline `data` list yields
an empty success, never a protocol error. -/
theorem C1_no_handle_returns_success
    (client : Client) (service : String) (body : Json) (maxP : Option Nat)
    (ps : Nat) (now : String) (fuel : Nat) (resp result sid : Json) (n : Nat)
    (hpost : client.post ("search/" ++ service) body = .ok resp)
    (hres : pyDictGet resp "result" (.obj []) = .ok result)
    (hsid : pyDictGet result "searchResultsDbId" .null = .ok sid)
    (hfalsy : truthy sid = false)
    (hlen : pyLen (_extract_data result) = .ok n) :
    search_paginated client service body maxP ps now fuel
      = .ok (_extract_data result,
             { totalCount := .num n, returnedCount := n, pagesFetched := none,
               timestamp := now, error := none }, 0) := by
  unfold search_paginated
  rw [hpost]
  simp [hres, hsid, hfalsy, hlen]

/-- C1 (witness): the amended theorem at a concrete submission response with
no handle and an empty inline `data` list. -/
theorem C1_witness :
    search_paginated
      ⟨fun _ _ _ => .error .typeError,
        fun _ _ => .ok (.obj [("result", .obj [("data", .arr [])])])⟩
      "studies" (.obj []) (some 2) 100 "t0" 5
      = .ok (.arr [], { totalCount := .num 0, returnedCount := 0, pagesFetched := none,
                        timestamp := "t0", error := none }, 0) :=
  C1_no_handle_returns_success
    ⟨fun _ _ _ => .error .typeError,
      fun _ _ => .ok (.obj [("result", .obj [("data", .arr [])])])⟩
    "studies" (.obj []) (some 2) 100 "t0" 5
    (.obj [("result", .obj [("data", .arr [])])]) (.obj [("data", .arr [])]) .null 0
    rfl rfl rfl rfl rfl

/-- C2 (counterexample): page 0 succeeds with one record (server reports
totalPages 5), page 1 raises a transport error; with `maxPages = 3` the claim
demands a success carrying the page-0 records plus an error marker, but
`fetch_paginated` propagates the exception: the call's outcome is the error
itself and the accumulated records are lost. -/
theorem C2_counterexample :
    fetch_paginated
      ⟨fun _ p _ =>
          if p = 0 then
            .ok (.obj [("result", .obj [("data", .arr [.num 1])]),
                       ("metadata", .obj [("pagination",
                          .obj [("currentPage", .num 0), ("totalPages", .num 5)])])])
          else .error (.transport "boom"),
        fun _ _ => .error .typeError⟩
      "studies" (some 3) 100 "t" 10
      = .error (.transport "boom") := rfl

/-- If every page before `p` is a uniform page and the transport layer first
raises on page `p` (which lies strictly below the capped page bound, so the
loop does reach it), the fetch loop started at any page `q ≤ p` with enough
fuel ends in that very transport error: nothing is caught along the way. -/
theorem fetchLoop_error_at (T M p : Nat) (rec : Json) (msg : String)
    (get : Nat → Except PyErr Json)
    (hget : ∀ q, get q = if q < p then .ok (uniformPage q T rec)
                         else .error (.transport msg))
    (hpm : p < min T M) :
    ∀ fuel q acc tc reqs, q ≤ p → p - q < fuel →
      fetchLoop get (some M) fuel q acc tc reqs = .error (.transport msg) := by
  intro fuel
  induction fuel with
  | zero =>
    intro q acc tc reqs hq hf
    exact absurd hf (by omega)
  | succ f ih =>
    intro q acc tc reqs hq hf
    have hqM : q < M := by
      have := min_le_right T M
      omega
    simp only [fetchLoop]
    rw [if_pos (by simp [loopCond, hqM]), hget q]
    by_cases hqp : q < p
    · rw [if_pos hqp]
      try dsimp only
      rw [fetchIter_uniform_next T M q rec acc tc (by omega)]
      try dsimp only
      exact ih (q + 1) (acc ++ [rec]) _ (reqs + 1) (by omega) (by omega)
    · rw [if_neg hqp]

/-- C2 (amended): for every failing page `p > 0` within the loop's capped
page bound, when pages `0..p-1` succeed and the transport layer raises on
page `p`, the error propagates out of `fetch_paginated` unchanged — the loop
has no exception handling, the records accumulated from pages `0..p-1` are
discarded, and no success-with-error-metadata is returned. -/
theorem C2_transport_error_propagates
    (T M p fuel ps : Nat) (rec : Json) (msg endpoint now : String)
    (hp : 1 ≤ p) (hpm : p < min T M) (hfuel : p < fuel) :
    fetch_paginated
      ⟨fun _ q _ => if q < p then .ok (uniformPage q T rec)
                    else .error (.transport msg),
        fun _ _ => .error .typeError⟩
      endpoint (some M) ps now fuel
      = .error (.transport msg) := by
  unfold fetch_paginated
  rw [fetchLoop_error_at T M p rec msg
    (fun q =>
      (⟨fun _ q _ => if q < p then .ok (uniformPage q T rec)
                     else .error (.transport msg),
        fun _ _ => .error .typeError⟩ : Client).get endpoint q ps)
    (fun q => rfl) hpm fuel 0 [] (.num 0) 0 (by omega) (by omega)]

/-- C2 (witness): the amended theorem with the transport error first raised
on page 2, after two successful pages, under `maxPages = 4`. -/
theorem C2_witness :
    fetch_paginated
      ⟨fun _ q _ => if q < 2 then .ok (uniformPage q 5 (.num 1))
                    else .error (.transport "boom"),
        fun _ _ => .error .typeError⟩
      "studies" (some 4) 100 "t" 3
      = .error (.transport "boom") :=
  C2_transport_error_propagates 5 4 2 3 100 (.num 1) "boom" "studies" "t"
    (by decide) (by decide) (by decide)

/-- C3: against a server that reports `totalPages = T` on every page, echoes
the requested page index and always returns one record per page, the number
of page requests issued and the reported `pagesFetched` both equal
`min T maxPages` — the loop's termination bound is
`min(serverReportedTotalPages, callerMaxPages)`. -/
theorem C3_pages_equal_min (T M ps fuel : Nat) (rec : Json) (endpoint now : String)
    (hT : 1 ≤ T) (hM : 1 ≤ M) (hfuel : min T M ≤ fuel) :
    fetch_paginated (uniformClient T rec) endpoint (some M) ps now fuel
      = .ok { records := List.replicate (min T M) rec,
              meta := { totalCount := .num (((min T M : Nat)) : Int),
                        returnedCount := min T M,
                        pagesFetched := some (min T M), timestamp := now, error := none },
              requests := min T M } := by
  unfold fetch_paginated
  rw [fetchLoop_uniform T M rec (fun p => (uniformClient T rec).get endpoint p ps)
    (fun q => rfl) hT hM fuel 0 [] (.num 0) 0 (by omega) (by omega)]
  dsimp only
  have hK : min T M - 1 + 1 = min T M := by omega
  simp [hK]

/-- C3 (witness): with `totalPages = 5` reported by the server and caller
`maxPages = 2`, exactly 2 page requests are issued. -/
theorem C3_witness :
    fetch_paginated (uniformClient 5 (.num 7)) "studies" (some 2) 100 "t" 2
      = .ok { records := List.replicate 2 (.num 7),
              meta := { totalCount := .num 2, returnedCount := 2,
                        pagesFetched := some 2, timestamp := "t", error := none },
              requests := 2 } :=
  C3_pages_equal_min 5 2 100 2 (.num 7) "studies" "t" (by decide) (by decide) (by decide)

/-- C5: when a result id has a metadata-index entry but its backing data file
is missing from the filesystem, the `load_result` tool returns the structured
failure built from the FileNotFoundError ("No such file or directory"); the
exception is caught by the tool's try/except, so the caller never sees an
unhandled exception. -/
theorem C5_missing_file_reports_not_found
    (c : ResultCache) (fs : FS) (rid : String) (info : MetaEntry)
    (lim : Option Nat) (cols : Option (List String)) (off : Nat)
    (hmeta : lookupA c.metadata rid = some info)
    (hfile : lookupA fs info.file_path = none)
    (hfmt : info.format = "csv" ∨ info.format = "json" ∨ info.format = "parquet") :
    load_result_tool c fs rid lim cols off
      = .failure (pyErrMsg (.fileNotFound info.file_path)) := by
  unfold load_result_tool load_result
  rcases hfmt with h | h | h <;> simp [hmeta, hfile, h]

/-- C5 (witness): the theorem at a concrete cache whose only index entry
points at a file that is absent from the (empty) filesystem. -/
theorem C5_witness :
    load_result_tool
      ⟨["cache"], [("r1", ⟨"r1", none, ["cache", "r1.csv"], "csv", 2, 1, ["a"], 9, "t", .null⟩)]⟩
      [] "r1" none none 0
      = .failure (pyErrMsg (.fileNotFound ["cache", "r1.csv"])) :=
  C5_missing_file_reports_not_found
    ⟨["cache"], [("r1", ⟨"r1", none, ["cache", "r1.csv"], "csv", 2, 1, ["a"], 9, "t", .null⟩)]⟩
    [] "r1" ⟨"r1", none, ["cache", "r1.csv"], "csv", 2, 1, ["a"], 9, "t", .null⟩
    none none 0 rfl rfl (Or.inl rfl)

/-- C6 (counterexample): a cached result with 2 stored rows, loaded through
the tool with no limit but `offset = 1`, returns a single record while the
slice metadata still reports `truncated = false` (and a stale
`returned_rows = 2`) — refuting "truncated=true exactly when fewer rows are
returned than the stored total". -/
theorem C6_counterexample :
    load_result_tool
      ⟨["cache"], [("r1", ⟨"r1", none, ["cache", "r1.csv"], "csv", 2, 1, ["a"], 7, "t0", .null⟩)]⟩
      [(["cache", "r1.csv"], .table ⟨["a"], [[.num 1], [.num 2]]⟩)]
      "r1" none none 1
      = .success { data := [.obj [("a", .num 2)]],
                   metadata := { result_id := "r1", total_rows := 2, returned_rows := 2,
                                 columns := ["a"], truncated := false, offset := some 1 } } :=
  rfl

/-- C6 (amended): the load operation supports a row limit, a row offset and
column projection, but the `truncated` flag in the slice metadata is computed
only from the limit: on every successful load it equals "a limit was supplied
and that limit is smaller than the stored total row count"; rows removed by
the offset (or ignored by the json branch when the limit is 0) do not affect
it. -/
theorem C6_truncated_is_limit_check
    (c : ResultCache) (fs : FS) (rid : String) (lim : Option Nat)
    (cols : Option (List String)) (off : Nat) (out : LoadOut)
    (h : load_result_tool c fs rid lim cols off = .success out) :
    out.metadata.truncated = truncFlag lim out.metadata.total_rows := by
  unfold load_result_tool at h
  cases hload : load_result c fs rid lim cols with
  | error e => rw [hload] at h; exact absurd h (by simp)
  | ok lo =>
    obtain ⟨lodata, m1, m2, m3, m4, m5, m6⟩ := lo
    have hmeta : m5 = truncFlag lim m2 := by
      unfold load_result at hload
      cases hk : lookupA c.metadata rid with
      | none => rw [hk] at hload; exact absurd hload (by simp)
      | some info =>
        rw [hk] at hload
        simp only at hload
        split at hload
        · exact absurd hload (by simp)
        · rename_i df0 heq
          simp only [Except.ok.injEq, LoadOut.mk.injEq, SliceMeta.mk.injEq] at hload
          obtain ⟨-, -, hm2, -, -, hm5, -⟩ := hload
          subst hm2
          rw [← hm5]
          cases lim <;> rfl
    rw [hload] at h
    simp only at h
    split at h
    · injection h with hout
      subst hout
      exact hmeta
    · injection h with hout
      subst hout
      exact hmeta

/-- Loading right after a DataFrame save returns the saved shape, sliced by
`limRows`, with the `truncFlag` truncation marker. -/
theorem load_after_save (c : ResultCache) (fs : FS) (df : DF) (rid : String)
    (sid : Option String) (qm : Json) (now fmt : String) (lim : Option Nat)
    (hfmt : fmt = "csv" ∨ fmt = "json" ∨ fmt = "parquet")
    (hne : c.cache_dir ++ [rid ++ "." ++ fmt] ≠ c.cache_dir ++ ["cache_metadata.json"]) :
    load_result
      ⟨c.cache_dir, insertA rid (saveEntry c.cache_dir df rid sid qm fmt now) c.metadata⟩
      (insertA (c.cache_dir ++ ["cache_metadata.json"])
        (.metaIdx (insertA rid (saveEntry c.cache_dir df rid sid qm fmt now) c.metadata))
        (insertA (c.cache_dir ++ [rid ++ "." ++ fmt]) (.table df) fs))
      rid lim none
      = .ok ⟨toRecords (limRows fmt lim df),
             ⟨rid, df.rows.length, (limRows fmt lim df).rows.length, df.cols,
              truncFlag lim df.rows.length, none⟩⟩ := by
  rcases hfmt with h | h | h <;> subst h <;>
    simp only [load_result, saveEntry, lookupA_insertA_self,
      lookupA_insertA_ne _ _ _ _ hne] <;>
    cases lim with
    | none => simp [limRows, truncFlag]
    | some l => by_cases hl : l = 0 <;> simp [limRows, truncFlag, dfHead, hl]

/-- C7: saving a tabular record set and loading it back with no limit returns
the same row count and column list as the saved input with
`truncated = false`, and loading with a limit smaller than the row count
reports `truncated = true`. The id/format hypothesis excludes the degenerate
name collision of a data file called `cache_metadata.json`, which the
hash-derived result ids of the callers can never produce. -/
theorem C7_save_load_roundtrip
    (c : ResultCache) (fs : FS) (df : DF) (rid : String) (sid : Option String)
    (qm : Json) (now : String) (fmt : String)
    (hfmt : fmt = "csv" ∨ fmt = "json" ∨ fmt = "parquet")
    (hid : rid ++ "." ++ fmt ≠ "cache_metadata.json") :
    ∃ c2 fs2 entry,
      save_result c fs rid (.frame df) qm fmt sid now = .ok (c2, fs2, entry) ∧
      (∃ out, load_result c2 fs2 rid none none = .ok out ∧
        out.data.length = df.rows.length ∧
        out.metadata.returned_rows = df.rows.length ∧
        out.metadata.total_rows = df.rows.length ∧
        out.metadata.columns = df.cols ∧
        out.metadata.truncated = false) ∧
      (∀ l, l < df.rows.length →
        ∃ out2, load_result c2 fs2 rid (some l) none = .ok out2 ∧
          out2.metadata.truncated = true) := by
  have hne : c.cache_dir ++ [rid ++ "." ++ fmt] ≠ c.cache_dir ++ ["cache_metadata.json"] :=
    append_singleton_ne _ hid
  refine ⟨_, _, _, save_result_frame c fs df rid sid qm fmt now hfmt, ?_, ?_⟩
  · refine ⟨_, load_after_save c fs df rid sid qm now fmt none hfmt hne,
      ?_, rfl, rfl, rfl, rfl⟩
    simp [toRecords, limRows]
  · intro l hlt
    refine ⟨_, load_after_save c fs df rid sid qm now fmt (some l) hfmt hne, ?_⟩
    simp [truncFlag, hlt]

/-- C7 (witness): the round-trip theorem on a concrete 2-row, 1-column table
saved as csv. -/
theorem C7_witness :
    ∃ c2 fs2 entry,
      save_result ⟨["cache"], []⟩ [] "r1" (.frame ⟨["a"], [[.num 1], [.num 2]]⟩)
          .null "csv" none "t1" = .ok (c2, fs2, entry) ∧
      (∃ out, load_result c2 fs2 "r1" none none = .ok out ∧
        out.data.length = 2 ∧
        out.metadata.returned_rows = 2 ∧
        out.metadata.total_rows = 2 ∧
        out.metadata.columns = ["a"] ∧
        out.metadata.truncated = false) ∧
      (∀ l, l < 2 →
        ∃ out2, load_result c2 fs2 "r1" (some l) none = .ok out2 ∧
          out2.metadata.truncated = true) :=
  C7_save_load_roundtrip ⟨["cache"], []⟩ [] ⟨["a"], [[.num 1], [.num 2]]⟩ "r1" none
    .null "t1" "csv" (Or.inl rfl) (by decide)

/-- C8: saving twice under the same result id with identical data leaves
exactly one index entry and exactly one data file for that id; the surviving
entry is the first one with its creation timestamp replaced by the second
call's, and the data file still holds the saved table. The id/format
hypothesis excludes the degenerate `cache_metadata.json` collision as in the
round-trip theorem. -/
theorem C8_save_idempotent
    (c : ResultCache) (fs : FS) (df : DF) (rid : String) (sid : Option String)
    (qm : Json) (fmt t1 t2 : String)
    (hfmt : fmt = "csv" ∨ fmt = "json" ∨ fmt = "parquet")
    (hid : rid ++ "." ++ fmt ≠ "cache_metadata.json") :
    ∃ c1 fs1 e1 c2 fs2 e2,
      save_result c fs rid (.frame df) qm fmt sid t1 = .ok (c1, fs1, e1) ∧
      save_result c1 fs1 rid (.frame df) qm fmt sid t2 = .ok (c2, fs2, e2) ∧
      countKey rid c2.metadata = 1 ∧
      countKey (c.cache_dir ++ [rid ++ "." ++ fmt]) fs2 = 1 ∧
      lookupA c2.metadata rid = some e2 ∧
      e2 = { e1 with created_at := t2 } ∧
      lookupA fs2 (c.cache_dir ++ [rid ++ "." ++ fmt]) = some (.table df) := by
  have hne : c.cache_dir ++ [rid ++ "." ++ fmt] ≠ c.cache_dir ++ ["cache_metadata.json"] :=
    append_singleton_ne _ hid
  refine ⟨_, _, _, _, _, _, save_result_frame c fs df rid sid qm fmt t1 hfmt,
    save_result_frame _ _ df rid sid qm fmt t2 hfmt, ?_, ?_, ?_, rfl, ?_⟩
  · simp [countKey_insertA_self]
  · simp [countKey_insertA_ne _ _ _ _ hne, countKey_insertA_self]
  · simp [lookupA_insertA_self]
  · simp [lookupA_insertA_ne _ _ _ _ hne, lookupA_insertA_self]

/-- C8 (witness): the idempotence theorem on a concrete 1-row table saved as
csv at two timestamps. -/
theorem C8_witness :
    ∃ c1 fs1 e1 c2 fs2 e2,
      save_result ⟨["cache"], []⟩ [] "r1" (.frame ⟨["a"], [[.num 5]]⟩)
          .null "csv" none "t1" = .ok (c1, fs1, e1) ∧
      save_result c1 fs1 "r1" (.frame ⟨["a"], [[.num 5]]⟩)
          .null "csv" none "t2" = .ok (c2, fs2, e2) ∧
      countKey "r1" c2.metadata = 1 ∧
      countKey (["cache"] ++ ["r1" ++ "." ++ "csv"]) fs2 = 1 ∧
      lookupA c2.metadata "r1" = some e2 ∧
      e2 = { e1 with created_at := "t2" } ∧
      lookupA fs2 (["cache"] ++ ["r1" ++ "." ++ "csv"]) = some (.table ⟨["a"], [[.num 5]]⟩) :=
  C8_save_idempotent ⟨["cache"], []⟩ [] ⟨["a"], [[.num 5]]⟩ "r1" none .null "csv"
    "t1" "t2" (Or.inl rfl) (by decide)

/-- C9: a session is created against an empty base directory, a result is
saved under it, and the Session Manager is re-instantiated against the
resulting filesystem (simulating a process restart); resolving the same
session id then returns a cache whose metadata listing already contains the
previously saved result's entry. The session id is truthy (non-empty, as an
explicit id parameter must be to be used at all) and the id/format pair
excludes the degenerate `cache_metadata.json` file-name collision as in the
round-trip theorem. -/
theorem C9_session_reattachment
    (base : FsPath) (sid rid : String) (df : DF) (qm : Json)
    (fmt t1 t2 t3 f1 f2 : String)
    (hsid : sid.isEmpty = false)
    (hfmt : fmt = "csv" ∨ fmt = "json" ∨ fmt = "parquet")
    (hid : rid ++ "." ++ fmt ≠ "cache_metadata.json") :
    ∃ smA fsA cA cA' fsB e smB smC fsC cR,
      mkSessionManager ([] : FS) base = .ok ⟨base, [], []⟩ ∧
      get_or_create_session ⟨base, [], []⟩ [] (some sid) none f1 t1
        = .ok (smA, fsA, cA, sid) ∧
      save_result cA fsA rid (.frame df) qm fmt (some sid) t2 = .ok (cA', fsB, e) ∧
      mkSessionManager fsB base = .ok smB ∧
      get_or_create_session smB fsB (some sid) none f2 t3 = .ok (smC, fsC, cR, sid) ∧
      lookupA cR.metadata rid = some e := by
  have hne1 : ∀ x : String, base ++ ["sessions.json"] ≠ (base ++ [sid]) ++ [x] := fun x =>
    ne_of_length_ne (by
      simp only [List.length_append, List.length_cons, List.length_nil]
      omega)
  have hA : get_or_create_session (⟨base, [], []⟩ : SessionManager) [] (some sid) none f1 t1
      = .ok (⟨base, [(sid, ⟨t1, t1, base ++ [sid]⟩)], [(sid, ⟨base ++ [sid], []⟩)]⟩,
             [(base ++ ["sessions.json"], .registry [(sid, ⟨t1, t1, base ++ [sid]⟩)])],
             ⟨base ++ [sid], []⟩, sid) := by
    simp [get_or_create_session, pyStrTruthy, hsid, lookupA, insertA, eraseKey,
      mkResultCache, hne1 "cache_metadata.json"]
  have hB := save_result_frame ⟨base ++ [sid], []⟩
    [(base ++ ["sessions.json"], .registry [(sid, ⟨t1, t1, base ++ [sid]⟩)])]
    df rid (some sid) qm fmt t2 hfmt
  dsimp only at hB
  have hC : mkSessionManager
      (insertA ((base ++ [sid]) ++ ["cache_metadata.json"])
        (.metaIdx (insertA rid (saveEntry (base ++ [sid]) df rid (some sid) qm fmt t2) []))
        (insertA ((base ++ [sid]) ++ [rid ++ "." ++ fmt]) (.table df)
          [(base ++ ["sessions.json"], .registry [(sid, ⟨t1, t1, base ++ [sid]⟩)])]))
      base
      = .ok ⟨base, [(sid, ⟨t1, t1, base ++ [sid]⟩)], []⟩ := by
    simp only [mkSessionManager,
      lookupA_insertA_ne _ _ _ _ (hne1 "cache_metadata.json"),
      lookupA_insertA_ne _ _ _ _ (hne1 (rid ++ "." ++ fmt))]
    simp [lookupA]
  have hD : get_or_create_session (⟨base, [(sid, ⟨t1, t1, base ++ [sid]⟩)], []⟩ : SessionManager)
      (insertA ((base ++ [sid]) ++ ["cache_metadata.json"])
        (.metaIdx (insertA rid (saveEntry (base ++ [sid]) df rid (some sid) qm fmt t2) []))
        (insertA ((base ++ [sid]) ++ [rid ++ "." ++ fmt]) (.table df)
          [(base ++ ["sessions.json"], .registry [(sid, ⟨t1, t1, base ++ [sid]⟩)])]))
      (some sid) none f2 t3
      = .ok (⟨base, [(sid, ⟨t1, t3, base ++ [sid]⟩)],
              [(sid, ⟨base ++ [sid],
                insertA rid (saveEntry (base ++ [sid]) df rid (some sid) qm fmt t2) []⟩)]⟩,
             insertA (base ++ ["sessions.json"])
               (.registry [(sid, ⟨t1, t3, base ++ [sid]⟩)])
               (insertA ((base ++ [sid]) ++ ["cache_metadata.json"])
                 (.metaIdx (insertA rid (saveEntry (base ++ [sid]) df rid (some sid) qm fmt t2) []))
                 (insertA ((base ++ [sid]) ++ [rid ++ "." ++ fmt]) (.table df)
                   [(base ++ ["sessions.json"], .registry [(sid, ⟨t1, t1, base ++ [sid]⟩)])])),
             ⟨base ++ [sid],
               insertA rid (saveEntry (base ++ [sid]) df rid (some sid) qm fmt t2) []⟩, sid) := by
    simp [get_or_create_session, pyStrTruthy, hsid, mkResultCache, lookupA,
      insertA, eraseKey, hid, hne1 "cache_metadata.json", hne1 (rid ++ "." ++ fmt),
      Ne.symm (hne1 "cache_metadata.json"), Ne.symm (hne1 (rid ++ "." ++ fmt))]
  refine ⟨_, _, _, _, _, _, _, _, _, _, rfl, hA, hB, hC, hD,
    lookupA_insertA_self _ _ _⟩

/-- C9 (witness): the reattachment theorem at a concrete base directory,
session id and 1-row table. -/
theorem C9_witness :
    ∃ smA fsA cA cA' fsB e smB smC fsC cR,
      mkSessionManager ([] : FS) ["tmp"] = .ok ⟨["tmp"], [], []⟩ ∧
      get_or_create_session ⟨["tmp"], [], []⟩ [] (some "s1") none "u1" "t1"
        = .ok (smA, fsA, cA, "s1") ∧
      save_result cA fsA "r1" (.frame ⟨["a"], [[.num 3]]⟩) .null "csv" (some "s1") "t2"
        = .ok (cA', fsB, e) ∧
      mkSessionManager fsB ["tmp"] = .ok smB ∧
      get_or_create_session smB fsB (some "s1") none "u2" "t3" = .ok (smC, fsC, cR, "s1") ∧
      lookupA cR.metadata "r1" = some e :=
  C9_session_reattachment ["tmp"] "s1" "r1" ⟨["a"], [[.num 3]]⟩ .null "csv"
    "t1" "t2" "t3" "u1" "u2" rfl (Or.inl rfl) (by decide)

/-- C6 (witness): the amended theorem at a concrete successful load with
`limit = 1` over 2 stored rows (flag true). -/
theorem C6_witness :
    (⟨[.obj [("a", .num 1)]],
      ⟨"r1", 2, 1, ["a"], true, none⟩⟩ : LoadOut).metadata.truncated
      = truncFlag (some 1) 2 :=
  C6_truncated_is_limit_check
    ⟨["cache"], [("r1", ⟨"r1", none, ["cache", "r1.csv"], "csv", 2, 1, ["a"], 7, "t0", .null⟩)]⟩
    [(["cache", "r1.csv"], .table ⟨["a"], [[.num 1], [.num 2]]⟩)]
    "r1" (some 1) none 0 ⟨[.obj [("a", .num 1)]], ⟨"r1", 2, 1, ["a"], true, none⟩⟩ rfl

/-- C10: capability validation is a substring test, not an exact-path lookup.
Whenever the cleaned service string occurs as a substring of any endpoint
path registered in any module, `check_endpoint_exists` returns `True`, and
`brapi_get` (with no `db_id` and no sub-resource) therefore accepts the
service name and proceeds to issue `fetch_paginated` requests against the
endpoint built from that very service string, instead of rejecting it as
unknown. -/
theorem C10_substring_capability
    (caps : ServerCapabilities) (client : Client) (service : String)
    (mname : String) (mcap : ModuleCapability) (ep : String) (epc : EndpointCapability)
    (maxr fuel : Nat) (now : String)
    (hm : (mname, mcap) ∈ caps.modules)
    (he : (ep, epc) ∈ mcap.endpoints)
    (hinf : strContains (lstripSlash service).data ep.data = true) :
    check_endpoint_exists caps service = true ∧
    brapi_get_dispatch caps client service none none maxr now fuel
      = .fetched service
          (fetch_paginated client service (some (min maxr 500 / 100 + 1))
            (min 100 (min maxr 500)) now fuel) := by
  have hchk : check_endpoint_exists caps service = true := by
    unfold check_endpoint_exists
    rw [List.any_eq_true]
    exact ⟨(mname, mcap), hm, by rw [List.any_eq_true]; exact ⟨(ep, epc), he, hinf⟩⟩
  refine ⟨hchk, ?_⟩
  unfold brapi_get_dispatch
  rw [hchk]
  simp [pyStrTruthy, joinSlash]

/-- C10 (witness): the theorem at a capability set registering only the
endpoint path `studies`, queried with the service name `stud` (a strict
substring of the registered path). -/
theorem C10_witness :
    check_endpoint_exists
      ⟨"sweetpotatobase",
        [("core", ⟨"core", [("studies", ⟨"studies", ["GET"], [], some "core", none⟩)]⟩)],
        []⟩ "stud" = true ∧
    brapi_get_dispatch
      ⟨"sweetpotatobase",
        [("core", ⟨"core", [("studies", ⟨"studies", ["GET"], [], some "core", none⟩)]⟩)],
        []⟩
      ⟨fun _ _ _ => .ok .null, fun _ _ => .error .typeError⟩
      "stud" none none 100 "t" 3
      = .fetched "stud"
          (fetch_paginated ⟨fun _ _ _ => .ok .null, fun _ _ => .error .typeError⟩
            "stud" (some (min 100 500 / 100 + 1)) (min 100 (min 100 500)) "t" 3) :=
  C10_substring_capability
    ⟨"sweetpotatobase",
      [("core", ⟨"core", [("studies", ⟨"studies", ["GET"], [], some "core", none⟩)]⟩)],
      []⟩
    ⟨fun _ _ _ => .ok .null, fun _ _ => .error .typeError⟩
    "stud" "core" ⟨"core", [("studies", ⟨"studies", ["GET"], [], some "core", none⟩)]⟩
    "studies" ⟨"studies", ["GET"], [], some "core", none⟩ 100 3 "t"
    (List.mem_singleton.mpr rfl) (List.mem_singleton.mpr rfl) (by decide)

end Breedbase
